import Mathlib

/-!
Shallow embedding of the sardem-sarsen pipeline script (src/sardem-sarsen.py)
and proofs about its catalog-reader, orchestrator and catalog-writer logic.

File system reads, archive contents, collaborator outcomes and file sizes are
abstracted as explicit oracles; every embedded function is a direct
transliteration of the corresponding Python function, including the POSIX
path helpers (os.path.join, os.path.dirname, os.path.normpath,
posixpath.relpath) and the pystac helpers the script calls.
-/

namespace SardemSarsen

/-! Character-list helpers mirroring the Python str operations used below. -/

/-- Tests whether the first character list is an initial segment of the second
(Python str.startswith after conversion to lists). -/
def isPre : List Char → List Char → Bool
  | [], _ => true
  | _ :: _, [] => false
  | a :: as, b :: bs => if a = b then isPre as bs else false

/-- Python str.split with separator "/": empty input gives one empty field. -/
def splitSlash : List Char → List (List Char)
  | [] => [[]]
  | c :: cs =>
    if c = '/' then [] :: splitSlash cs
    else
      match splitSlash cs with
      | [] => [[c]]
      | t :: ts => (c :: t) :: ts

/-- Python str.rstrip restricted to the slash character. -/
def rstripSlash (l : List Char) : List Char :=
  (l.reverse.dropWhile (fun c => c = '/')).reverse

/-- Python str.lstrip restricted to the slash character. -/
def lstripSlash (l : List Char) : List Char :=
  l.dropWhile (fun c => c = '/')

/-- Index one past the last slash of the list (Python rfind of "/" plus one). -/
def lastSlashEnd : List Char → Nat
  | [] => 0
  | c :: cs =>
    let r := lastSlashEnd cs
    if r = 0 then (if c = '/' then 1 else 0) else r + 1

/-- Python str.startswith on strings. -/
def str_starts_with (s pre : String) : Bool := isPre pre.data s.data

/-- Python str.endswith on strings. -/
def str_ends_with (s suf : String) : Bool := isPre suf.data.reverse s.data.reverse

/-! POSIX path functions, transliterated from CPython posixpath. -/

/-- Python os.path.dirname for POSIX paths. -/
def os_path_dirname (p : String) : String :=
  let cs := p.data
  let head := cs.take (lastSlashEnd cs)
  if head ≠ [] ∧ head.any (fun c => c ≠ '/') then ⟨rstripSlash head⟩ else ⟨head⟩

/-- Python os.path.basename for POSIX paths. -/
def os_path_basename (p : String) : String :=
  ⟨p.data.drop (lastSlashEnd p.data)⟩

/-- Python os.path.join for POSIX paths, restricted to two components. -/
def os_path_join (a b : String) : String :=
  if str_starts_with b "/" then b
  else if a = "" ∨ str_ends_with a "/" then a ++ b
  else a ++ "/" ++ b

/-- One step of the component loop inside CPython os.path.normpath.  The
accumulator holds the kept components in reverse order, so the Python
append/pop on the tail becomes cons/tail here. -/
def normStep (initSlashes : Nat) (acc : List (List Char)) (comp : List Char) :
    List (List Char) :=
  if comp = [] ∨ comp = ['.'] then acc
  else if comp ≠ ['.', '.'] ∨ (initSlashes = 0 ∧ acc = []) ∨ acc.head? = some ['.', '.'] then
    comp :: acc
  else
    match acc with
    | [] => []
    | _ :: t => t

/-- Python os.path.normpath for POSIX paths. -/
def os_path_normpath (p : String) : String :=
  if p = "" then "." else
  let cs := p.data
  let initSlashes : Nat :=
    if isPre ['/'] cs then
      if isPre ['/', '/'] cs ∧ ¬ isPre ['/', '/', '/'] cs then 2 else 1
    else 0
  let kept := ((splitSlash cs).foldl (normStep initSlashes) []).reverse
  let full := List.replicate initSlashes '/' ++ List.intercalate ['/'] kept
  if full = [] then "." else ⟨full⟩

/-- Python os.path.abspath for POSIX paths, with the working directory made
explicit (abspath joins a relative path onto the working directory and
normalizes the result). -/
def os_path_abspath (cwd p : String) : String :=
  os_path_normpath (os_path_join cwd p)

/-- Length of the longest common initial segment of two component lists
(posixpath.commonprefix applied to two component lists). -/
def commonLen : List (List Char) → List (List Char) → Nat
  | a :: as, b :: bs => if a = b then commonLen as bs + 1 else 0
  | _, _ => 0

/-- Python posixpath.relpath, with the working directory explicit.  The
ValueError branch for an empty path argument is never reached by this
pipeline, so the function is total here. -/
def posix_relpath (cwd path start : String) : String :=
  let pl := (splitSlash (os_path_abspath cwd path).data).filter (fun c => c ≠ [])
  let sl := (splitSlash (os_path_abspath cwd start).data).filter (fun c => c ≠ [])
  let i := commonLen sl pl
  let rel := List.replicate (sl.length - i) ['.', '.'] ++ pl.drop i
  if rel = [] then "." else ⟨List.intercalate ['/'] rel⟩

/-- Fuel-driven core of Python str.replace on character lists: occurrences of
the pattern are replaced left to right and are not re-scanned.  The fuel is
the length of the subject, which each step strictly consumes. -/
def replaceAux (pat repl : List Char) : Nat → List Char → List Char
  | _, [] => []
  | 0, s => s
  | fuel + 1, c :: cs =>
    if pat ≠ [] ∧ isPre pat (c :: cs) = true then
      repl ++ replaceAux pat repl fuel (List.drop pat.length (c :: cs))
    else
      c :: replaceAux pat repl fuel cs

/-- Python str.replace (every occurrence, left to right; the script only uses
a nonempty pattern). -/
def pyReplace (s pat repl : String) : String :=
  ⟨replaceAux pat.data repl.data s.data.length s.data⟩

/-! Data model: the slices of pystac objects this script reads and writes. -/

/-- A catalog link (pystac Link): relation and target href. -/
structure Link where
  rel : String
  target : String
deriving DecidableEq

/-- The slice of a pystac Catalog document that the script reads. -/
structure Catalog where
  links : List Link
deriving DecidableEq

/-- The slice of a pystac Asset that the script reads or writes.  The extra
fields carry only the numeric values the script ever stores. -/
structure Asset where
  href : String
  title : Option String
  description : Option String
  media_type : Option String
  roles : Option (List String)
  extra_fields : List (String × Nat)
deriving DecidableEq

/-- GeoJSON geometry dictionary as produced by bbox_to_geojson. -/
structure Geometry where
  type : String
  coordinates : List (List (ℚ × ℚ))
deriving DecidableEq

/-- The slice of a pystac Item that the script reads or writes. -/
structure Item where
  id : String
  bbox : ℚ × ℚ × ℚ × ℚ
  geometry : Geometry
  properties : List (String × String)
  assets : List (String × Asset)
  self_href : Option String
deriving DecidableEq

/-- A parsed JSON STAC document: pystac from_dict yields a Catalog or an Item. -/
inductive Doc
  | catalog (c : Catalog)
  | item (i : Item)
deriving DecidableEq

/-- Python dict assignment d[k] = v on an insertion-ordered association list:
an existing key keeps its position, a fresh key is appended. -/
def assocSet (k : String) (v : α) : List (String × α) → List (String × α)
  | [] => [(k, v)]
  | (k0, v0) :: t => if k0 = k then (k, v) :: t else (k0, v0) :: assocSet k v t

/-- Opening and parsing a path as a catalog document.  Any I/O or parse
failure (including the path holding a non-catalog document) is none, the
shape the surrounding Python handlers observe as a raised exception. -/
def readCatalog (fs : String → Option Doc) (p : String) : Option Catalog :=
  match fs p with
  | some (.catalog c) => some c
  | _ => none

/-- Opening and parsing a path as an item document; failures are none. -/
def readItem (fs : String → Option Doc) (p : String) : Option Item :=
  match fs p with
  | some (.item i) => some i
  | _ => none

/-- Resolution of a link target against the directory of the referencing
document, exactly as written in get_s1_grd_path and
retrieve_stac_item_by_rel:
os.path.normpath(os.path.join(os.path.dirname(doc), target)). -/
def resolveLink (docPath target : String) : String :=
  os_path_normpath (os_path_join (os_path_dirname docPath) target)

/-! Embeddings of the script functions. -/

/-- The link loop inside get_s1_grd_path.  In Python a failing item read
raises inside the loop; the handler around the whole body then returns the
list accumulated so far, which is why a failing link yields the accumulator
and stops the scan. -/
def collectPaths (fs : String → Option Doc) (json_file name : String) :
    List Link → List String → List String
  | [], acc => acc
  | l :: ls, acc =>
    if l.rel = "item" then
      let href := resolveLink json_file l.target
      match readItem fs href with
      | none => acc
      | some it =>
        match it.assets.lookup name with
        | some a =>
          collectPaths fs json_file name ls
            (acc ++ [os_path_normpath (os_path_join (os_path_dirname href) a.href)])
        | none => collectPaths fs json_file name ls acc
    else collectPaths fs json_file name ls acc

/-- Embedding of get_s1_grd_path: fetches the product paths named by the
item links of the catalog, resolving each href against the directory of the
document that holds it.  A catalog read failure gives the empty list. -/
def get_s1_grd_path (fs : String → Option Doc) (json_file name : String) :
    List String :=
  match readCatalog fs json_file with
  | none => []
  | some c => collectPaths fs json_file name c.links []

/-- The link scan inside retrieve_stac_item_by_rel: the first link whose
relation matches is opened; a read failure there raises and the handler
returns none, so later matching links are never tried. -/
def firstItemByRel (fs : String → Option Doc) (cat_file rel : String) :
    List Link → Option Item
  | [] => none
  | l :: ls =>
    if l.rel ≠ rel then firstItemByRel fs cat_file rel ls
    else readItem fs (resolveLink cat_file l.target)

/-- Embedding of retrieve_stac_item_by_rel. -/
def retrieve_stac_item_by_rel (fs : String → Option Doc) (cat_file rel : String) :
    Option Item :=
  match readCatalog fs cat_file with
  | none => none
  | some c => firstItemByRel fs cat_file rel c.links

/-- Embedding of extract_zip.  The zip oracle gives the distinct top-level
entry names of a readable archive and none for an unreadable or corrupt one.
The staging list is the current contents of the shared temp_extract
directory in creation order; extractall adds the entry names not already
present (existing names are overwritten in place).  The os.listdir call then
sees the whole directory, not just what this archive contributed. -/
def extract_zip (zipEntries : String → Option (List String)) (cwd : String)
    (zip_file : String) (staging : List String) : String × List String :=
  match zipEntries zip_file with
  | none => ("", staging)
  | some entries =>
    let temp_dir := os_path_abspath cwd "temp_extract"
    let staging2 := staging ++ entries.filter (fun e => !(staging.contains e))
    match staging2 with
    | [] => ("", staging2)
    | e :: _ => (os_path_join temp_dir e, staging2)

/-- Embedding of get_dem: the collaborator either produces out_dir/dem.tif or
its failure is caught and the empty sentinel returned. -/
def get_dem (demOk : Bool) (out_dir : String) : String :=
  if demOk then os_path_join out_dir "dem.tif" else ""

/-- The output path computed at the top of run_sarsen:
os.path.join(output_dir, os.path.basename(s1_file).replace(".SAFE",
"_sarsen_output.tif")). -/
def run_sarsen_output (output_dir s1_file : String) : String :=
  os_path_join output_dir
    (pyReplace (os_path_basename s1_file) ".SAFE" "_sarsen_output.tif")

/-- Embedding of run_sarsen: on collaborator failure the handler returns the
empty sentinel, otherwise the precomputed output path. -/
def run_sarsen (sarsenOk : String → String → Bool)
    (s1_file dem_file output_dir : String) : String :=
  if sarsenOk s1_file dem_file then run_sarsen_output output_dir s1_file else ""

/-- Embedding of bbox_to_geojson. -/
def bbox_to_geojson (bbox : ℚ × ℚ × ℚ × ℚ) : Geometry :=
  let (min_lon, min_lat, max_lon, max_lat) := bbox
  { type := "Polygon"
    coordinates := [[(min_lon, min_lat), (max_lon, min_lat), (max_lon, max_lat),
                     (min_lon, max_lat), (min_lon, min_lat)]] }

/-- Python exception kinds that can escape the embedded fragments. -/
inductive PyError
  | typeError
  | attributeError
  | indexError
  | keyError
  | fileError
  | stacError
deriving DecidableEq

/-- Output catalog as assembled by create_stage_out_catalog. -/
structure OutCatalog where
  id : String
  description : String
  href : String
  items : List Item
deriving DecidableEq

/-- Tests whether an href is absolute (pystac is_absolute_href, specialized
to the plain POSIX file paths this pipeline produces). -/
def is_absolute_href (href : String) : Bool := str_starts_with href "/"

/-- The pystac helper make_relative_href, specialized to plain POSIX file
paths (no URL scheme), which is the only form this pipeline produces: the
source path is made relative to the directory of the start path. -/
def make_relative_href (cwd source start : String) : String :=
  let start_dir : String := ⟨lstripSlash (os_path_dirname start).data⟩
  let source_path : String := ⟨lstripSlash source.data⟩
  let rel := posix_relpath cwd source_path start_dir
  let rel := if str_ends_with source "/" then rel ++ "/" else rel
  if rel ≠ "." ∧ ¬ str_starts_with rel ".." then "./" ++ rel else rel

/-- The pystac Item.make_asset_hrefs_relative: each asset with an absolute
href is rewritten relative to the self href; without a self href a STACError
is raised as soon as one absolute asset href exists. -/
def make_asset_hrefs_relative (cwd : String) (it : Item) : Except PyError Item :=
  match it.self_href with
  | some self =>
    .ok { it with assets := it.assets.map (fun ka =>
      if is_absolute_href ka.2.href then
        (ka.1, { ka.2 with href := make_relative_href cwd ka.2.href self })
      else ka) }
  | none =>
    if it.assets.any (fun ka => is_absolute_href ka.2.href) then .error .stacError
    else .ok it

/-- Embedding of create_stage_out_catalog.  The pystac set_self_href call
also rewrites relative hrefs of the existing assets against the previous
self href; those assets are replaced wholesale below, so that fixup cannot
affect the result and is omitted.  The missing-asset KeyError and the
os.path.getsize OSError are the uncaught exceptions of this function. -/
def create_stage_out_catalog (cwd : String) (getsize : String → Option Nat)
    (output_dir : String) (item0 : Item) (bbox : ℚ × ℚ × ℚ × ℚ)
    (asset_name asset_path : String) : Except PyError OutCatalog :=
  let self_path := os_path_abspath cwd
    (os_path_join (os_path_join output_dir item0.id) (item0.id ++ ".json"))
  let it1 : Item := { item0 with self_href := some self_path }
  let it2 : Item :=
    { it1 with properties := assocSet "title" (os_path_basename asset_path) it1.properties }
  let it3 : Item := { it2 with bbox := bbox, geometry := bbox_to_geojson bbox }
  match it3.assets.lookup asset_name with
  | none => .error .keyError
  | some a =>
    let apath := os_path_abspath cwd asset_path
    match getsize apath with
    | none => .error .fileError
    | some n =>
      let a2 : Asset := { a with
        href := apath
        title := some "output"
        media_type := some "image/tiff"
        extra_fields := assocSet "file:size" n a.extra_fields
        roles := some ["data"] }
      let it4 : Item := { it3 with assets := [("output", a2)] }
      match make_asset_hrefs_relative cwd it4 with
      | .error e => .error e
      | .ok it5 =>
        .ok { id := "SARsen output catalog"
              description := "SARsen output catalog"
              href := os_path_join output_dir "catalog.json"
              items := [it5] }

/-- Observable calls made while main runs, in order. -/
inductive Event
  | catalogRead (p : String)
  | demFetch
  | extractCall (p : String)
  | sarsenCall (s1 : String)
deriving DecidableEq

/-- The world main runs against: parsed documents, collaborator outcomes,
archive contents, file sizes, the working directory and the initial contents
of the shared staging directory. -/
structure Env where
  fs : String → Option Doc
  demOk : Bool
  zipEntries : String → Option (List String)
  sarsenOk : String → String → Bool
  getsize : String → Option Nat
  cwd : String
  staging0 : List String

/-- Parsed command-line arguments.  The stac_catalog_folder argument is not
required by the parser and defaults to None, hence the Option. -/
structure MainArgs where
  stac_catalog_folder : Option String
  bbox : ℚ × ℚ × ℚ × ℚ
  stac_asset_name : String
  out_dir : String

/-- Step 4 of main: the per-product loop.  Returns the collected outputs, the
calls attempted, and the final staging contents.  A product whose extraction
yields the empty sentinel is logged and skipped; when extraction yields a
path, the run_sarsen result is appended unconditionally. -/
def productLoop (env : Env) (dem_file out_dir : String) :
    List String → List String → List String × List Event × List String
  | [], staging => ([], [], staging)
  | p :: ps, staging =>
    let r := extract_zip env.zipEntries env.cwd p staging
    if r.1 ≠ "" then
      let out := run_sarsen env.sarsenOk r.1 dem_file out_dir
      let rest := productLoop env dem_file out_dir ps r.2
      (out :: rest.1, .extractCall p :: .sarsenCall r.1 :: rest.2.1, rest.2.2)
    else
      let rest := productLoop env dem_file out_dir ps r.2
      (rest.1, .extractCall p :: rest.2.1, rest.2.2)

deriving instance DecidableEq for Except

/-- What a run of main produces: the calls attempted, the discovered product
paths, the collected output paths, and either the stage-out catalog or the
Python exception that escapes. -/
structure MainOut where
  trace : List Event
  s1_grd_paths : List String
  output_files : List String
  result : Except PyError OutCatalog
deriving DecidableEq

/-- Embedding of main.  With the catalog folder argument omitted (None), the
os.path.join call raises TypeError at once.  Otherwise the steps run in
order; in the final call the arguments are evaluated left to right, so the
clone of a missing retrieved item raises AttributeError before the indexing
of an empty output collection raises IndexError. -/
def main (env : Env) (args : MainArgs) : MainOut :=
  match args.stac_catalog_folder with
  | none => ⟨[], [], [], .error .typeError⟩
  | some folder =>
    let catalog_path := os_path_join folder "catalog.json"
    let s1 := get_s1_grd_path env.fs catalog_path args.stac_asset_name
    let dem_file := get_dem env.demOk args.out_dir
    let loopOut := productLoop env dem_file args.out_dir s1 env.staging0
    let trace := .catalogRead catalog_path :: .demFetch :: loopOut.2.1
    let res : Except PyError OutCatalog :=
      match retrieve_stac_item_by_rel env.fs catalog_path "item" with
      | none => .error .attributeError
      | some item =>
        match loopOut.1 with
        | [] => .error .indexError
        | out0 :: _ =>
          create_stage_out_catalog env.cwd env.getsize args.out_dir item args.bbox
            args.stac_asset_name out0
    ⟨trace, s1, loopOut.1, res⟩

/-! Supporting lemmas. -/

theorem replaceAux_nil (pat repl : List Char) (fuel : Nat) :
    replaceAux pat repl fuel [] = [] := by
  cases fuel <;> rfl

/-- Replacing the pattern ".SAFE" in a subject that is a dot-free stem
followed by one copy of the pattern rewrites exactly that final copy. -/
theorem replaceAux_stem (repl : List Char) (stem : List Char) :
    ∀ fuel, stem.length + 5 ≤ fuel → (∀ c ∈ stem, c ≠ '.') →
      replaceAux ['.', 'S', 'A', 'F', 'E'] repl fuel
          (stem ++ ['.', 'S', 'A', 'F', 'E']) =
        stem ++ repl := by
  induction stem with
  | nil =>
    intro fuel hf _
    match fuel, hf with
    | f + 1, _ =>
      show replaceAux ['.', 'S', 'A', 'F', 'E'] repl (f + 1)
          ('.' :: ['S', 'A', 'F', 'E']) = repl
      rw [replaceAux, if_pos (by exact ⟨by decide, by decide⟩)]
      simp [replaceAux_nil]
  | cons c cs ih =>
    intro fuel hf hdot
    have hc : c ≠ '.' := hdot c (List.mem_cons_self c cs)
    match fuel, hf with
    | f + 1, hf =>
      have hpre : isPre ['.', 'S', 'A', 'F', 'E']
          (c :: (cs ++ ['.', 'S', 'A', 'F', 'E'])) = false := by
        simp only [isPre]
        rw [if_neg (fun h => hc h.symm)]
      show replaceAux ['.', 'S', 'A', 'F', 'E'] repl (f + 1)
          (c :: (cs ++ ['.', 'S', 'A', 'F', 'E'])) = c :: (cs ++ repl)
      rw [replaceAux, if_neg (by simp [hpre])]
      have : cs.length + 5 ≤ f := by
        have := hf
        simp only [List.length_cons] at this
        omega
      rw [ih f this (fun x hx => hdot x (List.mem_cons_of_mem c hx))]

theorem str_starts_with_slash (s : String) :
    str_starts_with s "/" = isPre ['/'] s.data := rfl

theorem isPre_slash_append (l r : List Char) (h : isPre ['/'] l = true) :
    isPre ['/'] (l ++ r) = true := by
  cases l with
  | nil => simp [isPre] at h
  | cons c cs =>
    simp only [List.cons_append, isPre] at h ⊢
    split at h
    · next hc => rw [if_pos hc]
    · exact absurd h (by simp)

theorem str_starts_append (a b : String) (h : str_starts_with a "/" = true) :
    str_starts_with (a ++ b) "/" = true := by
  rw [str_starts_with_slash] at h ⊢
  have hd : (a ++ b).data = a.data ++ b.data := rfl
  rw [hd]
  exact isPre_slash_append _ _ h

theorem os_path_join_abs (a b : String) (h : str_starts_with a "/" = true) :
    str_starts_with (os_path_join a b) "/" = true := by
  unfold os_path_join
  split
  · assumption
  · split
    · exact str_starts_append a b h
    · exact str_starts_append _ b (str_starts_append a "/" h)

theorem os_path_normpath_abs (p : String) (h : str_starts_with p "/" = true) :
    str_starts_with (os_path_normpath p) "/" = true := by
  have hp : p ≠ "" := by
    intro he
    subst he
    exact absurd h (by decide)
  rw [str_starts_with_slash] at h
  simp only [os_path_normpath]
  rw [if_neg hp, if_pos h]
  by_cases h2 : isPre ['/', '/'] p.data ∧ ¬ isPre ['/', '/', '/'] p.data
  · rw [if_pos h2]
    simp only [List.replicate, List.cons_append]
    rw [if_neg (by simp)]
    rw [str_starts_with_slash]
    simp [isPre]
  · rw [if_neg h2]
    simp only [List.replicate, List.cons_append]
    rw [if_neg (by simp)]
    rw [str_starts_with_slash]
    simp [isPre]

theorem os_path_abspath_abs (cwd p : String) (h : str_starts_with cwd "/" = true) :
    is_absolute_href (os_path_abspath cwd p) = true :=
  os_path_normpath_abs _ (os_path_join_abs cwd p h)

/-- The link loop returns the accumulator gathered before a failing item
link: the links after the failure are never visited. -/
theorem collectPaths_stop (fs : String → Option Doc) (json_file name : String)
    (bad : Link) (rest : List Link)
    (hrel : bad.rel = "item")
    (hfail : readItem fs (resolveLink json_file bad.target) = none) :
    ∀ (L1 : List Link) (acc : List String),
      collectPaths fs json_file name (L1 ++ bad :: rest) acc =
        collectPaths fs json_file name L1 acc := by
  intro L1
  induction L1 with
  | nil =>
    intro acc
    simp only [List.nil_append, collectPaths, hrel, if_pos, hfail]
  | cons l ls ih =>
    intro acc
    simp only [List.cons_append, collectPaths]
    split
    · split
      · rfl
      · split
        · exact ih _
        · exact ih _
    · exact ih _

/-- The collected outputs of the product loop are, in order, the run_sarsen
results for exactly the products whose extraction succeeded (the sarsenCall
events of the trace); a failed extraction contributes nothing. -/
theorem productLoop_outputs (env : Env) (dem_file out_dir : String) :
    ∀ (ps staging : List String),
      (productLoop env dem_file out_dir ps staging).1 =
        (productLoop env dem_file out_dir ps staging).2.1.filterMap (fun e =>
          match e with
          | .sarsenCall s1 => some (run_sarsen env.sarsenOk s1 dem_file out_dir)
          | _ => none) := by
  intro ps
  induction ps with
  | nil => intro staging; rfl
  | cons p ps ih =>
    intro staging
    simp only [productLoop]
    by_cases hx : (extract_zip env.zipEntries env.cwd p staging).1 ≠ ""
    · rw [if_pos hx]
      simp only [List.filterMap_cons]
      rw [ih]
    · rw [if_neg hx]
      simp only [List.filterMap_cons]
      rw [ih]

/-! Claim theorems. -/

/-- C4: for every 4-tuple (min_lon, min_lat, max_lon, max_lat),
bbox_to_geojson returns a Polygon whose single ring is the closed 5-vertex
sequence SW, SE, NE, NW, SW (first vertex equal to last); in particular the
bbox [-118.068, 34.222, -118.058, 34.228] produces a ring starting and
ending at (-118.068, 34.222). -/
theorem claim_C4_bbox_to_geojson :
    (∀ a b c d : ℚ,
      bbox_to_geojson (a, b, c, d) =
        { type := "Polygon"
          coordinates := [[(a, b), (c, b), (c, d), (a, d), (a, b)]] })
    ∧ (bbox_to_geojson (-118.068, 34.222, -118.058, 34.228)).coordinates =
        [[(-118.068, 34.222), (-118.058, 34.222), (-118.058, 34.228),
          (-118.068, 34.228), (-118.068, 34.222)]] :=
  ⟨fun _ _ _ _ => rfl, rfl⟩

/-- C10: when the stac_catalog_folder argument is omitted (None), main
raises TypeError at the os.path.join call immediately: no catalog read, no
DEM download and no product processing happens (the trace is empty), and no
product path or output path is collected. -/
theorem claim_C10_missing_folder (env : Env) (bbox : ℚ × ℚ × ℚ × ℚ)
    (name out_dir : String) :
    main env ⟨none, bbox, name, out_dir⟩ = ⟨[], [], [], .error .typeError⟩ := rfl

/-- C9 counterexample: the claim says every input basename ending in ".SAFE"
yields the stem plus "_sarsen_output.tif".  The code replaces every
occurrence of ".SAFE", so the basename "x.SAFE.SAFE" (stem "x.SAFE") yields
"x_sarsen_output.tif_sarsen_output.tif" instead of
"x.SAFE_sarsen_output.tif". -/
theorem claim_C9_counterexample :
    run_sarsen_output "/out" "/in/x.SAFE.SAFE" =
      "/out/x_sarsen_output.tif_sarsen_output.tif"
    ∧ run_sarsen_output "/out" "/in/x.SAFE.SAFE" ≠
      "/out/x.SAFE_sarsen_output.tif" := by
  decide

/-- C9 (amended): run_sarsen computes its output path by replacing every
occurrence of ".SAFE" in the input basename with "_sarsen_output.tif"; in
particular, whenever the basename is a stem followed by one final ".SAFE"
and ".SAFE" occurs nowhere else (the stem has no dot), the output path is
out_dir joined with the stem plus "_sarsen_output.tif". -/
theorem claim_C9_amended (output_dir s1_file : String) (stem : List Char)
    (hb : (os_path_basename s1_file).data = stem ++ ['.', 'S', 'A', 'F', 'E'])
    (hdot : ∀ c ∈ stem, c ≠ '.') :
    run_sarsen_output output_dir s1_file =
      os_path_join output_dir ⟨stem ++ "_sarsen_output.tif".data⟩ := by
  unfold run_sarsen_output pyReplace
  apply congrArg (os_path_join output_dir)
  have hpat : (".SAFE" : String).data = ['.', 'S', 'A', 'F', 'E'] := rfl
  rw [hpat, hb]
  apply congrArg String.mk
  have hlen : (stem ++ ['.', 'S', 'A', 'F', 'E']).length = stem.length + 5 := by
    simp
  rw [hlen]
  exact replaceAux_stem _ stem _ le_rfl hdot

/-- C9 witness: a concrete product whose basename is "S1A_ABC.SAFE" is
written to "/out/S1A_ABC_sarsen_output.tif". -/
theorem claim_C9_witness :
    run_sarsen_output "/out" "/tmp/S1A_ABC.SAFE" =
      "/out/S1A_ABC_sarsen_output.tif" := by
  have h := claim_C9_amended "/out" "/tmp/S1A_ABC.SAFE" "S1A_ABC".data
    (by decide) (by decide)
  exact h

theorem filter_not_contained_nil (l : List String) :
    l.filter (fun e => !(([] : List String).contains e)) = l := by
  induction l with
  | nil => rfl
  | cons a t ih => simp [List.filter_cons, ih]

/-- The zip oracle for the C8 scenario: archive a holds one entry, archive b
is readable but holds zero entries. -/
def zeC8 : String → Option (List String) := fun p =>
  if p = "/in/a.zip" then some ["old.SAFE"]
  else if p = "/in/b.zip" then some [] else none

/-- C8 counterexample: after archive a has been extracted, extracting the
zero-entry archive b returns the path of "old.SAFE" — a file archive b did
not contribute — instead of the absent result the claim requires for an
archive with zero entries; the shared staging directory is listed as a
whole. -/
theorem claim_C8_counterexample :
    extract_zip zeC8 "/w" "/in/a.zip" [] =
      ("/w/temp_extract/old.SAFE", ["old.SAFE"])
    ∧ extract_zip zeC8 "/w" "/in/b.zip" ["old.SAFE"] =
      ("/w/temp_extract/old.SAFE", ["old.SAFE"])
    ∧ zeC8 "/in/b.zip" = some [] := by
  decide

/-- C8 (amended): extract_zip returns the empty sentinel for an unreadable
or corrupt archive (leaving the staging contents untouched); when the shared
staging directory starts out empty, a readable archive with at least one
top-level entry yields the staged path of its own first entry, and a
readable archive with zero entries yields the empty sentinel.  With a
non-empty staging directory the returned path may instead be a file left by
an earlier extraction (see the counterexample). -/
theorem claim_C8_amended (zipEntries : String → Option (List String))
    (cwd zip_file : String) :
    (zipEntries zip_file = none →
      ∀ st, extract_zip zipEntries cwd zip_file st = ("", st))
    ∧ (∀ e es, zipEntries zip_file = some (e :: es) →
        extract_zip zipEntries cwd zip_file [] =
          (os_path_join (os_path_abspath cwd "temp_extract") e, e :: es))
    ∧ (zipEntries zip_file = some [] →
        extract_zip zipEntries cwd zip_file [] = ("", [])) := by
  refine ⟨?_, ?_, ?_⟩
  · intro h st
    simp [extract_zip, h]
  · intro e es h
    simp [extract_zip, h, filter_not_contained_nil (e :: es)]
  · intro h
    simp [extract_zip, h]

/-- C8 witness: concrete uses of the amended statement — a one-entry archive
into an empty staging directory, and an unreadable archive. -/
theorem claim_C8_witness :
    extract_zip zeC8 "/w" "/in/a.zip" [] =
      ("/w/temp_extract/old.SAFE", ["old.SAFE"])
    ∧ extract_zip zeC8 "/w" "/in/c.zip" ["x"] = ("", ["x"]) := by
  constructor
  · exact (claim_C8_amended zeC8 "/w" "/in/a.zip").2.1 "old.SAFE" [] rfl
  · exact (claim_C8_amended zeC8 "/w" "/in/c.zip").1 rfl ["x"]

/-- C7: per-item isolation of the product loop.  For any three discovered
products where the second fails extraction (in the staging state it
actually sees), the loop still attempts extraction for all three and
correction for the first and third, and collects exactly the two run_sarsen
results. -/
theorem claim_C7_per_item_isolation (env : Env) (dem_file out_dir p1 p2 p3 : String)
    (st0 : List String)
    (h1 : (extract_zip env.zipEntries env.cwd p1 st0).1 ≠ "")
    (h2 : (extract_zip env.zipEntries env.cwd p2
            (extract_zip env.zipEntries env.cwd p1 st0).2).1 = "")
    (h3 : (extract_zip env.zipEntries env.cwd p3
            (extract_zip env.zipEntries env.cwd p2
              (extract_zip env.zipEntries env.cwd p1 st0).2).2).1 ≠ "") :
    (productLoop env dem_file out_dir [p1, p2, p3] st0).2.1 =
      [.extractCall p1,
       .sarsenCall (extract_zip env.zipEntries env.cwd p1 st0).1,
       .extractCall p2,
       .extractCall p3,
       .sarsenCall (extract_zip env.zipEntries env.cwd p3
          (extract_zip env.zipEntries env.cwd p2
            (extract_zip env.zipEntries env.cwd p1 st0).2).2).1]
    ∧ (productLoop env dem_file out_dir [p1, p2, p3] st0).1 =
      [run_sarsen env.sarsenOk (extract_zip env.zipEntries env.cwd p1 st0).1
         dem_file out_dir,
       run_sarsen env.sarsenOk (extract_zip env.zipEntries env.cwd p3
           (extract_zip env.zipEntries env.cwd p2
             (extract_zip env.zipEntries env.cwd p1 st0).2).2).1
         dem_file out_dir] := by
  have h2x : ¬ ((extract_zip env.zipEntries env.cwd p2
      (extract_zip env.zipEntries env.cwd p1 st0).2).1 ≠ "") := by
    simp [h2]
  constructor <;>
    simp only [productLoop, if_pos h1, if_neg h2x, if_pos h3]

/-- The world for the C7 witness: three product archives of which the second
is unreadable. -/
def envC7 : Env :=
  { fs := (fun _ => none)
    demOk := true
    zipEntries := (fun p =>
      if p = "/z1" then some ["a1.SAFE"]
      else if p = "/z3" then some ["c3.SAFE"] else none)
    sarsenOk := (fun _ _ => true)
    getsize := (fun _ => none)
    cwd := "/w"
    staging0 := [] }

/-- C7 witness: the isolation theorem applied to a concrete three-product
run whose second archive is unreadable. -/
theorem claim_C7_witness :
    (productLoop envC7 "/out/dem.tif" "/out" ["/z1", "/z2", "/z3"] []).2.1 =
      [.extractCall "/z1", .sarsenCall "/w/temp_extract/a1.SAFE",
       .extractCall "/z2",
       .extractCall "/z3", .sarsenCall "/w/temp_extract/a1.SAFE"]
    ∧ (productLoop envC7 "/out/dem.tif" "/out" ["/z1", "/z2", "/z3"] []).1 =
      ["/out/a1_sarsen_output.tif", "/out/a1_sarsen_output.tif"] := by
  have h := claim_C7_per_item_isolation envC7 "/out/dem.tif" "/out" "/z1" "/z2" "/z3" []
    (by decide) (by decide) (by decide)
  exact h

/-- The item behind the first link of the C6 catalog. -/
def itemC6 : Item :=
  { id := "it1", bbox := (0, 0, 1, 1), geometry := bbox_to_geojson (0, 0, 1, 1),
    properties := [("title", "t")]
    assets := [("PRODUCT",
      { href := "./p1.zip", title := none, description := none,
        media_type := none, roles := none, extra_fields := [] })]
    self_href := none }

/-- The file system for the C6 scenario: a catalog with two item links whose
second item document is unreadable. -/
def fsC6 : String → Option Doc := fun p =>
  if p = "/cat/catalog.json" then
    some (.catalog ⟨[⟨"item", "item1.json"⟩, ⟨"item", "item2.json"⟩]⟩)
  else if p = "/cat/item1.json" then some (.item itemC6)
  else none

/-- C6 counterexample: reading the second item document fails, yet
get_s1_grd_path returns the non-empty partially accumulated list gathered
from the first item — the claim that no partial result is ever returned
after a parse or I/O error is false for item-document errors. -/
theorem claim_C6_counterexample :
    get_s1_grd_path fsC6 "/cat/catalog.json" "PRODUCT" = ["/cat/p1.zip"]
    ∧ fsC6 (resolveLink "/cat/catalog.json" "item2.json") = none := by
  decide

/-- C6 (amended): a read or parse failure of the catalog itself yields the
empty list with no crash; a read or parse failure of an item document stops
the scan at the failing link and returns the paths accumulated from the
links before it (a partial result), again with no crash. -/
theorem claim_C6_amended (fs : String → Option Doc) (json_file name : String) :
    (readCatalog fs json_file = none → get_s1_grd_path fs json_file name = [])
    ∧ (∀ cat L1 bad rest, readCatalog fs json_file = some cat →
        cat.links = L1 ++ bad :: rest → bad.rel = "item" →
        readItem fs (resolveLink json_file bad.target) = none →
        get_s1_grd_path fs json_file name =
          collectPaths fs json_file name L1 []) := by
  constructor
  · intro h
    simp [get_s1_grd_path, h]
  · intro cat L1 bad rest hcat hlinks hrel hfail
    simp only [get_s1_grd_path, hcat, hlinks]
    exact collectPaths_stop fs json_file name bad rest hrel hfail L1 []

/-- C6 witness: the amended statement applied to the concrete two-link
catalog of the counterexample, both for the catalog-failure conjunct (an
unreadable catalog) and for the item-failure conjunct. -/
theorem claim_C6_witness :
    get_s1_grd_path fsC6 "/bad/catalog.json" "PRODUCT" = []
    ∧ get_s1_grd_path fsC6 "/cat/catalog.json" "PRODUCT" =
        collectPaths fsC6 "/cat/catalog.json" "PRODUCT" [⟨"item", "item1.json"⟩] [] := by
  constructor
  · exact (claim_C6_amended fsC6 "/bad/catalog.json" "PRODUCT").1 rfl
  · exact (claim_C6_amended fsC6 "/cat/catalog.json" "PRODUCT").2
      ⟨[⟨"item", "item1.json"⟩, ⟨"item", "item2.json"⟩]⟩
      [⟨"item", "item1.json"⟩] ⟨"item", "item2.json"⟩ [] rfl rfl rfl (by decide)

/-- C3: link resolution is relative to the referencing document, never the
working directory.  For every file system holding, at /a/b/catalog.json, a
catalog whose single item link targets ../c/item.json, and holding at the
resolved path /a/c/item.json an item whose requested asset href is
./product.zip, get_s1_grd_path returns exactly ["/a/c/product.zip"]: the
item path is resolved against the catalog directory /a/b and the asset path
against the item directory /a/c. -/
theorem claim_C3_link_resolution (fs : String → Option Doc) (name : String)
    (it : Item) (a : Asset)
    (hcat : fs "/a/b/catalog.json" =
      some (.catalog ⟨[⟨"item", "../c/item.json"⟩]⟩))
    (hit : fs "/a/c/item.json" = some (.item it))
    (ha : it.assets.lookup name = some a)
    (hhref : a.href = "./product.zip") :
    get_s1_grd_path fs "/a/b/catalog.json" name = ["/a/c/product.zip"] := by
  have hres : resolveLink "/a/b/catalog.json" "../c/item.json" = "/a/c/item.json" := by
    decide
  simp only [get_s1_grd_path, readCatalog, hcat, collectPaths, hres]
  simp only [if_true]
  simp only [readItem, hit, ha, hhref]
  have hres2 : os_path_normpath (os_path_join (os_path_dirname "/a/c/item.json")
      "./product.zip") = "/a/c/product.zip" := by
    decide
  simp only [hres2, collectPaths]
  rfl

/-- The item for the C3 witness. -/
def itemC3 : Item :=
  { id := "it1", bbox := (0, 0, 1, 1), geometry := bbox_to_geojson (0, 0, 1, 1),
    properties := []
    assets := [("PRODUCT",
      { href := "./product.zip", title := none, description := none,
        media_type := none, roles := none, extra_fields := [] })]
    self_href := none }

/-- The file system for the C3 witness: the nested-directory catalog layout
of the claim. -/
def fsC3 : String → Option Doc := fun p =>
  if p = "/a/b/catalog.json" then
    some (.catalog ⟨[⟨"item", "../c/item.json"⟩]⟩)
  else if p = "/a/c/item.json" then some (.item itemC3)
  else none

/-- C3 witness: the resolution theorem applied to the concrete layout. -/
theorem claim_C3_witness :
    get_s1_grd_path fsC3 "/a/b/catalog.json" "PRODUCT" = ["/a/c/product.zip"] := by
  exact claim_C3_link_resolution fsC3 "PRODUCT" itemC3
    ((itemC3.assets.lookup "PRODUCT").get (by decide)) rfl rfl (by decide) rfl

/-- The product asset of the C1 scenario. -/
def assetC1 : Asset :=
  { href := "./p1.zip", title := none, description := none,
    media_type := none, roles := none, extra_fields := [] }

/-- The input item of the C1 scenario. -/
def itemC1 : Item :=
  { id := "it1", bbox := (0, 0, 1, 1), geometry := bbox_to_geojson (0, 0, 1, 1),
    properties := [("title", "t")]
    assets := [("PRODUCT", assetC1)]
    self_href := none }

/-- The world for the C1 counterexample: one product whose archive extracts
fine but whose terrain-correction collaborator fails. -/
def envC1 : Env :=
  { fs := (fun p =>
      if p = "/stac/catalog.json" then some (.catalog ⟨[⟨"item", "item1.json"⟩]⟩)
      else if p = "/stac/item1.json" then some (.item itemC1)
      else none)
    demOk := true
    zipEntries := (fun p => if p = "/stac/p1.zip" then some ["p1.SAFE"] else none)
    sarsenOk := (fun _ _ => false)
    getsize := (fun _ => none)
    cwd := "/w"
    staging0 := [] }

/-- The arguments for the C1 counterexample run. -/
def argsC1 : MainArgs := ⟨some "/stac", (1, 2, 3, 4), "PRODUCT", "/out"⟩

/-- C1 counterexample: with one discovered product whose extraction succeeds
and whose terrain-correction step returns the empty sentinel, the collection
assembled by the product loop of main is [""] — it contains an empty path,
and that failing product did contribute an element to the collection handed
to catalog synthesis. -/
theorem claim_C1_counterexample :
    (main envC1 argsC1).output_files = [""]
    ∧ "" ∈ (main envC1 argsC1).output_files := by
  constructor
  · decide
  · decide

/-- C1 (amended): the collection assembled by the product loop of main holds
one entry per product whose extraction succeeded — the run_sarsen result for
that product, which is the empty string when terrain correction failed — and
products whose extraction failed contribute nothing.  The collection can
therefore contain empty paths (see the counterexample). -/
theorem claim_C1_amended (env : Env) (args : MainArgs) :
    (main env args).output_files =
      (main env args).trace.filterMap (fun e =>
        match e with
        | .sarsenCall s1 =>
          some (run_sarsen env.sarsenOk s1 (get_dem env.demOk args.out_dir) args.out_dir)
        | _ => none) := by
  cases hargs : args.stac_catalog_folder with
  | none => simp [main, hargs]
  | some folder =>
    simp only [main, hargs]
    simp only [List.filterMap_cons]
    exact productLoop_outputs env _ args.out_dir _ env.staging0

/-- The world for the C2 counterexample: every file read fails, so no item
can be retrieved and no product is discovered. -/
def envC2 : Env :=
  { fs := (fun _ => none)
    demOk := false
    zipEntries := (fun _ => none)
    sarsenOk := (fun _ _ => false)
    getsize := (fun _ => none)
    cwd := "/w"
    staging0 := [] }

/-- The arguments for the C2 counterexample run. -/
def argsC2 : MainArgs := ⟨some "/stac", (1, 2, 3, 4), "PRODUCT", "/out"⟩

/-- C2 counterexample: on a run with an empty output collection the
exception that escapes main is the AttributeError raised by cloning the
absent retrieved item — evaluated before the indexing of the empty output
collection — not the IndexError the claim names as the only possible
escaping exception. -/
theorem claim_C2_counterexample :
    (main envC2 argsC2).result = .error .attributeError
    ∧ (main envC2 argsC2).output_files = [] := by
  constructor
  · decide
  · decide

/-- C2 (amended): collaborator failures inside steps 2 to 4 never raise, and
main can end abnormally only at the os.path.join of an omitted catalog
folder (TypeError) or inside the final catalog-assembly step, which raises
AttributeError when no item with relation "item" can be retrieved,
IndexError when an item was retrieved but the output collection is empty,
and otherwise returns whatever create_stage_out_catalog produces (including
its uncaught KeyError and OSError). -/
theorem claim_C2_amended (env : Env) (args : MainArgs) :
    (args.stac_catalog_folder = none →
      (main env args).result = .error .typeError)
    ∧ (∀ folder, args.stac_catalog_folder = some folder →
        (retrieve_stac_item_by_rel env.fs (os_path_join folder "catalog.json")
            "item" = none →
          (main env args).result = .error .attributeError)
        ∧ (∀ item,
            retrieve_stac_item_by_rel env.fs (os_path_join folder "catalog.json")
                "item" = some item →
            ((main env args).output_files = [] →
              (main env args).result = .error .indexError)
            ∧ (∀ out0 rest, (main env args).output_files = out0 :: rest →
                (main env args).result =
                  create_stage_out_catalog env.cwd env.getsize args.out_dir item
                    args.bbox args.stac_asset_name out0))) := by
  refine ⟨?_, ?_⟩
  · intro h
    simp [main, h]
  · intro folder hf
    refine ⟨?_, ?_⟩
    · intro hr
      simp [main, hf, hr]
    · intro item hr
      refine ⟨?_, ?_⟩
      · intro ho
        simp only [main, hf] at ho ⊢
        simp only [hr, ho]
      · intro out0 rest ho
        simp only [main, hf] at ho ⊢
        simp only [hr, ho]

/-- C2 witness: the amended statement applied to concrete runs — an omitted
catalog folder raises TypeError, and a run that retrieves no item raises
AttributeError. -/
theorem claim_C2_witness :
    (main envC2 ⟨none, (1, 2, 3, 4), "PRODUCT", "/out"⟩).result = .error .typeError
    ∧ (main envC2 argsC2).result = .error .attributeError := by
  constructor
  · exact (claim_C2_amended envC2 ⟨none, (1, 2, 3, 4), "PRODUCT", "/out"⟩).1 rfl
  · exact ((claim_C2_amended envC2 argsC2).2 "/stac" rfl).1 (by decide)

/-- The original product asset of the C5 scenario, carrying a description
and an unrelated extra field that the clone must inherit. -/
def assetC5 : Asset :=
  { href := "./S1.zip", title := some "orig", description := some "d",
    media_type := none, roles := none, extra_fields := [("other", 7)] }

/-- The representative input item of the C5 scenario. -/
def itemC5 : Item :=
  { id := "item1", bbox := (0, 0, 1, 1), geometry := bbox_to_geojson (0, 0, 1, 1),
    properties := [("title", "orig")]
    assets := [("PRODUCT", assetC5)]
    self_href := none }

/-- The single output asset create_stage_out_catalog builds in the C5
scenario: its href ends up relative to the item directory, not absolute. -/
def assetC5out : Asset :=
  { href := "../S1_sarsen_output.tif", title := some "output",
    description := some "d", media_type := some "image/tiff",
    roles := some ["data"], extra_fields := [("other", 7), ("file:size", 12345)] }

/-- The output item of the C5 scenario. -/
def itemC5out : Item :=
  { id := "item1", bbox := (1, 2, 3, 4), geometry := bbox_to_geojson (1, 2, 3, 4),
    properties := [("title", "S1_sarsen_output.tif")]
    assets := [("output", assetC5out)]
    self_href := some "/out/item1/item1.json" }

/-- The output catalog of the C5 scenario. -/
def catC5out : OutCatalog :=
  { id := "SARsen output catalog", description := "SARsen output catalog",
    href := "/out/catalog.json", items := [itemC5out] }

/-- C5 counterexample: after create_stage_out_catalog the single "output"
asset of the item carries the href "../S1_sarsen_output.tif" — the output
path made relative to the item directory by make_asset_hrefs_relative — and
not the absolute path "/out/S1_sarsen_output.tif" the claim states; all the
other asserted fields (title, media type, roles, file:size, discarded prior
assets) do hold. -/
theorem claim_C5_counterexample :
    create_stage_out_catalog "/w" (fun _ => some 12345) "/out" itemC5 (1, 2, 3, 4)
        "PRODUCT" "/out/S1_sarsen_output.tif" = .ok catC5out
    ∧ assetC5out.href ≠ os_path_abspath "/w" "/out/S1_sarsen_output.tif" := by
  constructor
  · decide
  · decide

/-- The self href create_stage_out_catalog assigns to the output item:
output_dir/item_id/item_id.json made absolute. -/
def expectedStageOutSelf (cwd output_dir : String) (item0 : Item) : String :=
  os_path_abspath cwd
    (os_path_join (os_path_join output_dir item0.id) (item0.id ++ ".json"))

/-- The single asset the output item is expected to carry: the clone of the
original asset with the rewritten descriptive fields, the recorded file
size, and the href of the output file made relative to the item self-href
directory. -/
def expectedStageOutAsset (cwd output_dir : String) (item0 : Item)
    (asset_path : String) (a : Asset) (n : Nat) : Asset :=
  { href := make_relative_href cwd (os_path_abspath cwd asset_path)
      (expectedStageOutSelf cwd output_dir item0)
    title := some "output"
    description := a.description
    media_type := some "image/tiff"
    roles := some ["data"]
    extra_fields := assocSet "file:size" n a.extra_fields }

/-- The output item expected from create_stage_out_catalog. -/
def expectedStageOutItem (cwd output_dir : String) (item0 : Item)
    (bbox : ℚ × ℚ × ℚ × ℚ) (asset_path : String) (a : Asset) (n : Nat) : Item :=
  { id := item0.id
    bbox := bbox
    geometry := bbox_to_geojson bbox
    properties := assocSet "title" (os_path_basename asset_path) item0.properties
    assets := [("output", expectedStageOutAsset cwd output_dir item0 asset_path a n)]
    self_href := some (expectedStageOutSelf cwd output_dir item0) }

/-- C5 (amended): for every representative item holding the named asset and
every output file with a known size, create_stage_out_catalog replaces the
asset mapping of the item wholesale with the single key "output", whose
asset is the clone of the original asset with title "output", media type
"image/tiff", roles ["data"], the extra field "file:size" holding the
output byte size, and href first set to the absolute output path and then
rewritten by make_asset_hrefs_relative relative to the item self-href
directory; bbox, geometry and title are rewritten as well. -/
theorem claim_C5_amended (cwd : String) (getsize : String → Option Nat)
    (output_dir : String) (item0 : Item) (bbox : ℚ × ℚ × ℚ × ℚ)
    (asset_name asset_path : String) (a : Asset) (n : Nat)
    (hcwd : str_starts_with cwd "/" = true)
    (ha : item0.assets.lookup asset_name = some a)
    (hn : getsize (os_path_abspath cwd asset_path) = some n) :
    create_stage_out_catalog cwd getsize output_dir item0 bbox asset_name asset_path =
      .ok { id := "SARsen output catalog"
            description := "SARsen output catalog"
            href := os_path_join output_dir "catalog.json"
            items := [expectedStageOutItem cwd output_dir item0 bbox asset_path a n] } := by
  have habs : is_absolute_href (os_path_abspath cwd asset_path) = true :=
    os_path_abspath_abs cwd asset_path hcwd
  simp only [create_stage_out_catalog, ha, hn, make_asset_hrefs_relative,
    List.map_cons, List.map_nil]
  rw [if_pos habs]
  rfl

/-- C5 witness: the amended statement applied to the concrete C5 scenario. -/
theorem claim_C5_witness :
    create_stage_out_catalog "/w" (fun _ => some 12345) "/out" itemC5 (1, 2, 3, 4)
        "PRODUCT" "/out/S1_sarsen_output.tif" = .ok catC5out := by
  have h := claim_C5_amended "/w" (fun _ => some 12345) "/out" itemC5 (1, 2, 3, 4)
    "PRODUCT" "/out/S1_sarsen_output.tif" assetC5 12345 rfl (by decide) rfl
  exact h.trans (by decide)
